import Mathlib

/-!
Shallow embedding of the generative-music core (`composer.py` with constants
from `config.py`) of the philips-hue-ambient-music repository.

Modelling conventions:
* Python floats are modelled as exact rationals (`ℚ`).
* Transcendental float operations (`math.sin`, `2 ** x` for non-integral
  exponents, `math.sqrt`, the constant `math.pi`) are modelled by an abstract
  environment `MathEnv` of uninterpreted rational functions.
* Python's pseudo-random sources are modelled by explicit streams of draws:
  the process-wide `random` module is an `Rng` value threaded through the
  operations that consult it, and each `random.Random(seed)` instance is the
  stream `MathEnv.seedStream seed`, so that equal seeds give equal streams.
* Python `int(x)` (truncation toward zero) is `pyInt`; Python `%` on
  integers is `Int.emod` (`%` on `ℤ`), which has the same sign behaviour.
* A call that would raise a `TypeError` (summing `None` batteries) is
  modelled with an `Option` result.
-/

namespace HueMusic

/-- Python `int(x)`: truncation toward zero. -/
def pyInt (q : ℚ) : ℤ := if q < 0 then -(⌊-q⌋) else ⌊q⌋

/-- A deterministic stream of pseudo-random draws together with a cursor;
models a Python random-number generator state. Each draw stands for one
`random()` call, nominally in `[0, 1)`. -/
structure Rng where
  stream : ℕ → ℚ
  pos : ℕ

/-- One `random.random()` call: return the current draw, advance the cursor. -/
def Rng.next (g : Rng) : ℚ × Rng := (g.stream g.pos, ⟨g.stream, g.pos + 1⟩)

/-- The draws of a generator are genuine `random.random()` values in `[0,1)`. -/
def Rng.Valid (g : Rng) : Prop := ∀ n, 0 ≤ g.stream n ∧ g.stream n < 1

/-- `random.choice` on a list of the given length, abstracted as one uniform
draw mapped to an index. -/
def Rng.choiceIdx (g : Rng) (len : ℕ) : ℕ × Rng :=
  let (u, g') := g.next
  ((pyInt (u * len)).toNat, g')

/-- `random.choice(l)`, with a default for the (never reached) empty case. -/
def Rng.choice (g : Rng) (l : List ℤ) : ℤ × Rng :=
  let (i, g') := g.choiceIdx l.length
  (l.getD i 0, g')

/-- Abstract environment for float operations with no exact rational
counterpart.  Every operation of the source that uses them is parametrised
by such an environment. -/
structure MathEnv where
  sin : ℚ → ℚ
  pow2 : ℚ → ℚ
  sqrt : ℚ → ℚ
  pi : ℚ
  seedStream : ℤ → ℕ → ℚ

/-- Python `pat in s` on strings (substring containment). -/
def strContains (s pat : String) : Bool := decide (pat.toList <:+: s.toList)

/-- Python `s.upper()` (a character-wise map, as `String.toUpper`). -/
def strUpper (s : String) : String := ⟨s.data.map Char.toUpper⟩

/-- Python `s.lower()` (a character-wise map, as `String.toLower`). -/
def strLower (s : String) : String := ⟨s.data.map Char.toLower⟩

/-- Python `s.startswith(pat)`. -/
def strStartsWith (s pat : String) : Bool := decide (pat.toList <+: s.toList)

/-! ### config.py -/

/-- `BASE_FREQUENCY = 261.63`. -/
def BASE_FREQUENCY : ℚ := 26163 / 100

/-- The `SCALE_FREQUENCIES` dict: scale name to semitone offsets. -/
def SCALE_FREQUENCIES (k : String) : Option (List ℤ) :=
  if k = "major" then some [0, 2, 4, 5, 7, 9, 11]
  else if k = "minor" then some [0, 2, 3, 5, 7, 8, 10]
  else if k = "pentatonic" then some [0, 2, 4, 7, 9]
  else none

/-! ### LampPersonality -/

/-- `LampPersonality` dataclass: input fields plus the properties derived in
`__post_init__`. -/
structure LampPersonality where
  light_id : ℤ
  name : String
  model_id : String
  light_type : String
  unique_id : String
  waveform : String
  octave_offset : ℤ
  richness : ℚ
  attack : ℚ
  character : String
  product_type : String
deriving Repr, DecidableEq

/-- Construction of a `LampPersonality`: records the input fields and runs the
`__post_init__` derivation chain. -/
def LampPersonality.make (light_id : ℤ) (name model_id light_type unique_id : String) :
    LampPersonality :=
  let m := strUpper model_id
  -- (waveform, richness, character, product_type, octave_offset) from the chain;
  -- dataclass defaults: ("sine", 0.5, "neutral", "bulb", 0)
  let d : String × ℚ × String × String × ℤ :=
    if strStartsWith m "LCT" then ("warm", 7/10, "warm", "bulb", 0)
    else if strStartsWith m "LCA" then ("warm", 3/4, "bright", "bulb", 0)
    else if strStartsWith m "LST" then
      ("saw", if m = "LST003" ∨ m = "LST004" then 9/10 else 4/5, "sparkle", "strip", 0)
    else if strStartsWith m "LWB" then ("sine", 1/4, "neutral", "bulb", 0)
    else if strStartsWith m "LWA" then ("sine", 3/10, "soft", "bulb", 0)
    else if strStartsWith m "LTW" ∨ strStartsWith m "LTA" then ("triangle", 1/2, "warm", "bulb", 0)
    else if strStartsWith m "LCG" then ("triangle", 3/5, "bright", "spot", 0)
    else if strStartsWith m "LCF" then ("triangle", 11/20, "deep", "spot", 0)
    else if strStartsWith m "LCX" then ("square", 13/20, "deep", "bar", 0)
    else if strStartsWith m "LLC" then
      (if m = "LLC010" then ("bell", 4/5, "sparkle", "bloom", 0)
       else ("bell", 7/10, "airy", "bloom", 0))
    else if strStartsWith m "LCL" then ("pad", 1/2, "deep", "outdoor", -1)
    else if strStartsWith m "LCS" then ("saw", 3/5, "sparkle", "outdoor", 0)
    else if strStartsWith m "LWO" then ("sine", 7/20, "soft", "outdoor", 0)
    else if strStartsWith m "LOM" then ("square", 1/5, "neutral", "plug", 0)
    else if m = "LCT024" then ("triangle", 13/20, "airy", "floor", 0)
    else if strContains (strLower light_type) "outdoor" then ("pad", 2/5, "deep", "outdoor", 0)
    else if strContains (strLower light_type) "color" then ("warm", 3/5, "warm", "bulb", 0)
    else ("sine", 1/2, "neutral", "bulb", 0)
  let waveform := d.1
  let richness := d.2.1
  let character := d.2.2.1
  let product_type := d.2.2.2.1
  -- `self.octave_offset = (self.light_id % 5) - 2` (unconditional)
  let octave_offset : ℤ := light_id % 5 - 2
  -- unique_id hash variations
  let hash_val : ℕ := (unique_id.toList.map Char.toNat).sum
  let attack : ℚ := if unique_id ≠ "" then 1/20 + (hash_val % 10 : ℕ) * (2/100) else 1/10
  let richness : ℚ :=
    if unique_id ≠ "" then richness + ((hash_val % 20 : ℤ) - 10) * (1/100) else richness
  -- light type modifiers
  let richness : ℚ :=
    if strContains light_type "Extended color" then min 1 (richness + 15/100)
    else if strContains light_type "Dimmable" then max (15/100) (richness - 1/10)
    else richness
  ⟨light_id, name, model_id, light_type, unique_id,
   waveform, octave_offset, richness, attack, character, product_type⟩

/-! ### SensorPersonality -/

/-- `SensorPersonality` dataclass: input fields plus derived properties. -/
structure SensorPersonality where
  sensor_id : ℤ
  name : String
  model : String
  battery : Option ℤ
  melody_seed : ℤ
  instrument_type : String
  nervousness : ℚ
  pattern_type : String
  sensor_category : String
deriving Repr, DecidableEq

/-- Construction of a `SensorPersonality`: records the input fields and runs
the `__post_init__` derivation chain. -/
def SensorPersonality.make (sensor_id : ℤ) (name model : String) (battery : Option ℤ) :
    SensorPersonality :=
  let m := strUpper model
  let d : String × String :=
    if strContains m "SML001" then ("pad", "motion")
    else if strContains m "SML002" then ("bell", "motion")
    else if strContains m "SML003" then ("pad", "motion")
    else if strContains m "SML004" then ("chime", "motion")
    else if strStartsWith m "RWL" then ("pluck", "switch")
    else if strContains m "ROM001" then ("mallet", "button")
    else if strContains m "ZGPSWITCH" then ("pluck", "button")
    else if strContains m "TEMPERATURE" ∨ strContains m "ZLLTemperature" then ("string", "temp")
    else if strContains m "LIGHTLEVEL" ∨ strContains m "ZLLLightLevel" then ("chime", "light")
    else if strContains (strUpper m) "DAYLIGHT" then ("pad", "daylight")
    else if strContains m "PRESENCE" ∨ strContains m "ZLLPresence" ∨ strContains m "ZHAPresence"
      then ("pad", "motion")
    else ("sine", "motion")
  let instrument_type := d.1
  let sensor_category := d.2
  -- battery -> nervousness
  let nervousness : ℚ :=
    match battery with
    | none => 1/10
    | some b =>
      if sensor_category = "button" then 1/10
      else if b ≤ 10 then 1
      else if b ≤ 20 then 4/5
      else if b ≤ 35 then 1/2
      else if b ≤ 50 then 3/10
      else 1/10
  -- sensor id -> pattern type
  let patterns := ["walk", "up", "down", "zigzag", "jump", "repeat", "chord", "trill"]
  let pt := patterns.getD (sensor_id % (patterns.length : ℤ)).toNat "walk"
  let pattern_type :=
    if sensor_category = "button" then ["chord", "jump", "trill"].getD (sensor_id % 3).toNat "chord"
    else if sensor_category = "temp" then ["walk", "up", "down"].getD (sensor_id % 3).toNat "walk"
    else pt
  ⟨sensor_id, name, model, battery, sensor_id,
   instrument_type, nervousness, pattern_type, sensor_category⟩

/-! ### Sequencer -/

/-- `Sequencer`: central clock.  `start_time` is the wall-clock timestamp
recorded at construction; wall time is passed explicitly to the operations
that read it. -/
structure Sequencer where
  bpm : ℚ
  start_time : ℚ
  last_beat : ℤ
deriving Repr, DecidableEq

/-- `Sequencer(bpm)` constructed at wall time `t0` (`_last_beat = -1`). -/
def Sequencer.init (bpm : ℚ) (t0 : ℚ) : Sequencer := ⟨bpm, t0, -1⟩

/-- `beat_duration = 60 / bpm`. -/
def Sequencer.beat_duration (s : Sequencer) : ℚ := 60 / s.bpm

/-- `current_time` at wall time `now`. -/
def Sequencer.current_time (s : Sequencer) (now : ℚ) : ℚ := now - s.start_time

/-- `current_beat` at wall time `now`. -/
def Sequencer.current_beat (s : Sequencer) (now : ℚ) : ℚ :=
  s.current_time now / s.beat_duration

/-- `set_tempo`: clamp to `[40, 120]`. -/
def Sequencer.set_tempo (s : Sequencer) (bpm : ℚ) : Sequencer :=
  { s with bpm := max 40 (min 120 bpm) }

/-- `is_new_beat(subdivision)` at wall time `now`. -/
def Sequencer.is_new_beat (s : Sequencer) (subdivision : ℚ) (now : ℚ) : Bool × Sequencer :=
  let current := pyInt (s.current_beat now * subdivision)
  if s.last_beat < current then (true, { s with last_beat := current }) else (false, s)

/-! ### DroneLayer -/

/-- One drone voice slot; the source keeps three parallel lists
`frequencies`, `amplitudes`, `phases` that are always grown together, which
we represent as one list of slots. -/
structure DroneSlot where
  freq : ℚ
  amp : ℚ
  phase : ℚ
deriving Repr, DecidableEq

/-- `DroneLayer` state. -/
structure DroneLayer where
  slots : List DroneSlot
  target_frequencies : List ℚ
  target_amplitudes : List ℚ
  lfo_phase : ℚ
  lfo_speed : ℚ
  lamp_personalities : List LampPersonality

/-- Fresh `DroneLayer()`. -/
def DroneLayer.init : DroneLayer := ⟨[], [], [], 0, 15/100, []⟩

/-- The `while` loop of `update_from_lamps`: one new slot per remaining
target frequency, each with the target frequency, amplitude `0.0` and a
randomized initial phase `random() * 2π`. -/
def mkNewSlots (env : MathEnv) : List ℚ → Rng → List DroneSlot × Rng
  | [], g => ([], g)
  | f :: fs, g =>
    let (u, g') := g.next
    let (rest, g'') := mkNewSlots env fs g'
    (⟨f, 0, u * 2 * env.pi⟩ :: rest, g'')

/-- `DroneLayer.update_from_lamps`: truncate targets to 6, grow slots to
match (never shrink). -/
def DroneLayer.update_from_lamps (env : MathEnv) (d : DroneLayer)
    (lamp_frequencies lamp_amplitudes : List ℚ) (personalities : List LampPersonality)
    (g : Rng) : DroneLayer × Rng :=
  let tf := lamp_frequencies.take 6
  let ta := lamp_amplitudes.take 6
  let lps := personalities.take 6
  let grown := mkNewSlots env (tf.drop d.slots.length) g
  ({ d with target_frequencies := tf, target_amplitudes := ta,
            lamp_personalities := lps, slots := d.slots ++ grown.1 }, grown.2)

/-- `_generate_waveform(phase, waveform, richness)`. -/
def generate_waveform (env : MathEnv) (phase : ℚ) (waveform : String) (richness : ℚ) : ℚ :=
  if waveform = "sine" then env.sin phase
  else if waveform = "saw" then
    let hmax := pyInt (4 + richness * 6)
    let harmonics := List.range' 1 (hmax - 1).toNat
    (harmonics.foldl (fun acc h => acc + env.sin (phase * h) / h) 0) * (1/2)
  else if waveform = "triangle" then
    env.sin phase + env.sin (phase * 3) / 9 * richness
  else if waveform = "square" then
    (env.sin phase + env.sin (phase * 3) / 3 * richness
      + env.sin (phase * 5) / 5 * richness * (1/2)) * (7/10)
  else if waveform = "warm" then
    env.sin phase * (7/10) + env.sin (phase * 2) * (2/10) * richness
      + env.sin (phase * (1/2)) * (3/10)
  else if waveform = "bell" then
    env.sin phase * (1/2) + env.sin (phase * (24/10)) * (3/10) * richness
      + env.sin (phase * (595/100)) * (15/100) * richness
      + env.sin (phase * (82/10)) * (5/100) * richness
  else if waveform = "pad" then
    env.sin phase * (4/10) + env.sin (phase * (1002/1000)) * (3/10)
      + env.sin (phase * (998/1000)) * (3/10) + env.sin (phase * (1/2)) * (2/10) * richness
  else env.sin phase

/-- The inner slot loop of `DroneLayer.get_samples` for one output sample:
walks the slots in order with index `j`, stopping (`break`) at the first
`j ≥ len(target_frequencies)`; returns the updated slots and the summed
sample contribution. -/
def droneSlotLoop (env : MathEnv) (sample_rate lfo : ℚ)
    (tf ta : List ℚ) (lps : List LampPersonality) :
    ℕ → List DroneSlot → List DroneSlot × ℚ
  | _, [] => ([], 0)
  | j, s :: rest =>
    if j < tf.length then
      let freq' := s.freq + (tf.getD j 0 - s.freq) * (1/10000)
      let target_amp := ta.getD j 0
      let amp' := s.amp + (target_amp - s.amp) * (1/1000)
      let phase' := s.phase + 2 * env.pi * freq' / sample_rate
      let wave_sample :=
        match lps.get? j with
        | some p => generate_waveform env phase' p.waveform p.richness
        | none => env.sin phase'
      let r := droneSlotLoop env sample_rate lfo tf ta lps (j + 1) rest
      (⟨freq', amp', phase'⟩ :: r.1, r.2 + wave_sample * amp' * lfo * (1/4))
    else (s :: rest, 0)

/-- One sample of `DroneLayer.get_samples` (LFO advance plus slot loop). -/
def DroneLayer.sampleStep (env : MathEnv) (sample_rate : ℚ) (d : DroneLayer) :
    DroneLayer × ℚ :=
  let lfo_inc := d.lfo_speed * 2 * env.pi / sample_rate
  let lfo_phase' := d.lfo_phase + lfo_inc
  let lfo := 7/10 + 3/10 * env.sin lfo_phase'
  let r := droneSlotLoop env sample_rate lfo
    d.target_frequencies d.target_amplitudes d.lamp_personalities 0 d.slots
  ({ d with lfo_phase := lfo_phase', slots := r.1 }, r.2)

/-- The `for i in range(num_samples)` loop of `DroneLayer.get_samples`. -/
def droneLoop (env : MathEnv) (sample_rate : ℚ) : ℕ → DroneLayer → List ℚ × DroneLayer
  | 0, d => ([], d)
  | n + 1, d =>
    let s := d.sampleStep env sample_rate
    let r := droneLoop env sample_rate n s.1
    (s.2 :: r.1, r.2)

/-- `DroneLayer.get_samples(num_samples, sample_rate)`: early all-zero return
when there are no voice slots. -/
def DroneLayer.get_samples (env : MathEnv) (d : DroneLayer) (num_samples : ℕ)
    (sample_rate : ℚ) : List ℚ × DroneLayer :=
  if d.slots = [] then (List.replicate num_samples 0, d)
  else droneLoop env sample_rate num_samples d

/-! ### ArpLayer -/

/-- `ArpLayer` state.  `patterns` is the fixed list
`[[0,1,2,1],[0,1,2,3,2,1],[0,2,1,3],[0,0,1,2]]`. -/
structure ArpLayer where
  notes : List ℚ
  pattern_idx : ℕ
  current_note : ℚ
  phase : ℚ
  envelope : ℚ
  current_pattern : ℕ
deriving Repr, DecidableEq

/-- The fixed arpeggiator step patterns. -/
def arpPatterns : List (List ℕ) := [[0, 1, 2, 1], [0, 1, 2, 3, 2, 1], [0, 2, 1, 3], [0, 0, 1, 2]]

/-- Fresh `ArpLayer()`. -/
def ArpLayer.init : ArpLayer := ⟨[], 0, 0, 0, 0, 0⟩

/-- `update_notes(frequencies)`: `sorted(set(f for f in frequencies if f > 0))[:4]`. -/
def ArpLayer.update_notes (a : ArpLayer) (frequencies : List ℚ) : ArpLayer :=
  { a with notes := (((frequencies.filter (fun f => 0 < f)).dedup).insertionSort (· ≤ ·)).take 4 }

/-- `trigger_next()`: advance the pattern cursor; on a valid hit set
`current_note` and reset the envelope. -/
def ArpLayer.trigger_next (a : ArpLayer) : ArpLayer :=
  if a.notes = [] then a
  else
    let pattern := arpPatterns.getD (a.current_pattern % arpPatterns.length) []
    let note_idx := pattern.getD (a.pattern_idx % pattern.length) 0
    let a' :=
      if note_idx < a.notes.length then
        { a with current_note := a.notes.getD note_idx 0, envelope := 1 }
      else a
    { a' with pattern_idx := a'.pattern_idx + 1 }

/-- One sample of `ArpLayer.get_samples`. -/
def ArpLayer.sampleStep (env : MathEnv) (sample_rate : ℚ) (a : ArpLayer) : ArpLayer × ℚ :=
  let env' := a.envelope * (9997/10000)
  if 1/100 < env' then
    let phase' := a.phase + 2 * env.pi * a.current_note / sample_rate
    let sample := env.sin phase' * (7/10) + env.sin (phase' * 2) * (2/10)
      + env.sin (phase' * 3) * (1/10)
    ({ a with envelope := env', phase := phase' }, sample * env' * (35/100))
  else ({ a with envelope := env' }, 0)

/-- The sample loop of `ArpLayer.get_samples`. -/
def arpLoop (env : MathEnv) (sample_rate : ℚ) : ℕ → ArpLayer → List ℚ × ArpLayer
  | 0, a => ([], a)
  | n + 1, a =>
    let s := a.sampleStep env sample_rate
    let r := arpLoop env sample_rate n s.1
    (s.2 :: r.1, r.2)

/-- `ArpLayer.get_samples(num_samples, sample_rate)`. -/
def ArpLayer.get_samples (env : MathEnv) (a : ArpLayer) (num_samples : ℕ)
    (sample_rate : ℚ) : List ℚ × ArpLayer :=
  if a.current_note ≤ 0 then (List.replicate num_samples 0, a)
  else arpLoop env sample_rate num_samples a

/-! ### MelodyVoice -/

/-- `MelodyVoice` state. -/
structure MelodyVoice where
  personality : SensorPersonality
  scale : List ℤ
  root_freq : ℚ
  current_degree : ℤ
  current_freq : ℚ
  phase : ℚ
  envelope : ℚ
  octave : ℤ
  pattern_position : ℕ
  pattern_direction : ℤ
  rng : Rng

/-- `MelodyVoice(personality)`: the private generator is
`random.Random(personality.melody_seed)`, modelled by the seed-determined
stream `env.seedStream`. -/
def MelodyVoice.init (env : MathEnv) (personality : SensorPersonality) : MelodyVoice :=
  { personality := personality
    scale := [0, 2, 4, 7, 9]
    root_freq := BASE_FREQUENCY
    current_degree := 2
    current_freq := 0
    phase := 0
    envelope := 0
    octave := 1
    pattern_position := 0
    pattern_direction := 1
    rng := ⟨env.seedStream personality.melody_seed, 0⟩ }

/-- `set_scale(scale_type, root_freq)` (unknown scale names default to
pentatonic, as `dict.get`). -/
def MelodyVoice.set_scale (v : MelodyVoice) (scale_type : String) (root_freq : ℚ) :
    MelodyVoice :=
  { v with scale := (SCALE_FREQUENCIES scale_type).getD [0, 2, 4, 7, 9],
           root_freq := root_freq }

/-- The step-selection part of `trigger_note`: consumes draws from the
voice's private generator and returns `(step, pattern_direction', rng')`. -/
def melodyStep (pattern : String) (nervousness : ℚ) (pattern_position : ℕ)
    (pattern_direction : ℤ) (g : Rng) : ℤ × ℤ × Rng :=
  let (u, g1) := g.next
  if u < nervousness then
    let (step, g2) := g1.choice [-3, -2, 2, 3]
    (step, pattern_direction, g2)
  else
    if pattern = "walk" then
      let (step, g2) := g1.choice [-1, 0, 1]
      (step, pattern_direction, g2)
    else if pattern = "up" then
      let (u2, g2) := g1.next
      (if 3/10 < u2 then 1 else -1, pattern_direction, g2)
    else if pattern = "down" then
      let (u2, g2) := g1.next
      (if 3/10 < u2 then -1 else 1, pattern_direction, g2)
    else if pattern = "zigzag" then
      (pattern_direction, -pattern_direction, g1)
    else if pattern = "jump" then
      let (step, g2) := g1.choice [-2, 2]
      (step, pattern_direction, g2)
    else if pattern = "repeat" then
      let (u2, g2) := g1.next
      if 4/10 < u2 then (0, pattern_direction, g2)
      else
        let (step, g3) := g2.choice [-1, 1]
        (step, pattern_direction, g3)
    else if pattern = "chord" then
      let (step, g2) := g1.choice [0, 2, 4, -2, -4]
      (step, pattern_direction, g2)
    else if pattern = "trill" then
      (if pattern_position % 2 = 0 then 1 else -1, pattern_direction, g1)
    else (0, pattern_direction, g1)

/-- `trigger_note()`: pick a step, clamp the scale degree, recompute the
frequency, reset the envelope. -/
def MelodyVoice.trigger_note (env : MathEnv) (v : MelodyVoice) : MelodyVoice :=
  let r := melodyStep v.personality.pattern_type v.personality.nervousness
    v.pattern_position v.pattern_direction v.rng
  let step := r.1
  let current_degree := max 0 (min ((v.scale.length : ℤ) - 1) (v.current_degree + step))
  let semitone := v.scale.getD current_degree.toNat 0
  { v with
    current_degree := current_degree
    current_freq := v.root_freq * env.pow2 ((semitone : ℚ) / 12) * (2 : ℚ) ^ v.octave
    envelope := 1
    pattern_position := v.pattern_position + 1
    pattern_direction := r.2.1
    rng := r.2.2 }

/-- The per-instrument envelope decay rate of `MelodyVoice.get_samples`. -/
def instrumentDecay (instrument : String) : ℚ :=
  if instrument = "pluck" then 9995/10000
  else if instrument = "bell" then 9998/10000
  else if instrument = "pad" then 99995/100000
  else if instrument = "chime" then 9997/10000
  else if instrument = "mallet" then 9993/10000
  else if instrument = "string" then 99992/100000
  else 9999/10000

/-- The per-instrument waveform of `MelodyVoice.get_samples`. -/
def instrumentSample (env : MathEnv) (instrument : String) (phase : ℚ) : ℚ :=
  if instrument = "bell" then
    env.sin phase * (1/2) + env.sin (phase * (24/10)) * (3/10)
      + env.sin (phase * (595/100)) * (2/10)
  else if instrument = "pluck" then
    env.sin phase * (6/10) + env.sin (phase * 2) * (25/100) + env.sin (phase * 3) * (15/100)
  else if instrument = "chime" then
    env.sin phase * (4/10) + env.sin (phase * 3) * (25/100)
      + env.sin (phase * 5) * (2/10) + env.sin (phase * 7) * (15/100)
  else if instrument = "mallet" then
    env.sin phase * (7/10) + env.sin (phase * 4) * (2/10) + env.sin (phase * (1/2)) * (1/10)
  else if instrument = "string" then
    env.sin phase * (6/10) + env.sin (phase * 2) * (2/10) + env.sin (phase * 3) * (1/10)
      + env.sin (phase * (101/100)) * (1/10)
  else if instrument = "pad" then
    env.sin phase * (8/10) + env.sin (phase * (1/2)) * (2/10)
  else env.sin phase

/-- One sample of `MelodyVoice.get_samples`. -/
def MelodyVoice.sampleStep (env : MathEnv) (sample_rate decay : ℚ) (v : MelodyVoice) :
    MelodyVoice × ℚ :=
  let e' := v.envelope * decay
  if 1/100 < e' then
    let phase' := v.phase + 2 * env.pi * v.current_freq / sample_rate
    ({ v with envelope := e', phase := phase' },
     instrumentSample env v.personality.instrument_type phase' * e' * (4/10))
  else ({ v with envelope := e' }, 0)

/-- The sample loop of `MelodyVoice.get_samples`. -/
def melodyVoiceLoop (env : MathEnv) (sample_rate decay : ℚ) :
    ℕ → MelodyVoice → List ℚ × MelodyVoice
  | 0, v => ([], v)
  | n + 1, v =>
    let s := v.sampleStep env sample_rate decay
    let r := melodyVoiceLoop env sample_rate decay n s.1
    (s.2 :: r.1, r.2)

/-- `MelodyVoice.get_samples(num_samples, sample_rate)`. -/
def MelodyVoice.get_samples (env : MathEnv) (v : MelodyVoice) (num_samples : ℕ)
    (sample_rate : ℚ) : List ℚ × MelodyVoice :=
  if v.current_freq ≤ 0 ∨ v.envelope < 1/100 then (List.replicate num_samples 0, v)
  else melodyVoiceLoop env sample_rate (instrumentDecay v.personality.instrument_type)
    num_samples v

/-! ### MelodyLayer -/

/-- `MelodyLayer` state; `voices` models the insertion-ordered Python dict
`sensor_id -> MelodyVoice` as an association list. -/
structure MelodyLayer where
  voices : List (ℤ × MelodyVoice)
  active_scale : String
  root_freq : ℚ
  total_nervousness : ℚ
  complexity : ℕ

/-- Fresh `MelodyLayer()`. -/
def MelodyLayer.init : MelodyLayer := ⟨[], "pentatonic", BASE_FREQUENCY, 0, 0⟩

/-- Dict membership `sensor_id in self.voices`. -/
def hasVoice (vs : List (ℤ × MelodyVoice)) (sensor_id : ℤ) : Bool :=
  vs.any (fun kv => kv.1 = sensor_id)

/-- Dict lookup `self.voices[sensor_id]`. -/
def lookupVoice (vs : List (ℤ × MelodyVoice)) (sensor_id : ℤ) : Option MelodyVoice :=
  (vs.find? (fun kv => kv.1 = sensor_id)).map Prod.snd

/-- In-place mutation of the voice stored under a key. -/
def mapVoice (vs : List (ℤ × MelodyVoice)) (sensor_id : ℤ) (f : MelodyVoice → MelodyVoice) :
    List (ℤ × MelodyVoice) :=
  vs.map (fun kv => if kv.1 = sensor_id then (kv.1, f kv.2) else kv)

/-- `update_personalities(personalities)`: create missing voices (dict
insertion appends), apply the current scale to each listed voice, recompute
the aggregate statistics. -/
def MelodyLayer.update_personalities (env : MathEnv) (ml : MelodyLayer)
    (personalities : List SensorPersonality) : MelodyLayer :=
  let voices' := personalities.foldl (fun vs p =>
    let vs1 := if hasVoice vs p.sensor_id then vs
               else vs ++ [(p.sensor_id, MelodyVoice.init env p)]
    mapVoice vs1 p.sensor_id (fun v => v.set_scale ml.active_scale ml.root_freq)) ml.voices
  { ml with
    voices := voices'
    total_nervousness :=
      if personalities = [] then 0
      else (personalities.map SensorPersonality.nervousness).sum / (personalities.length : ℚ)
    complexity := personalities.length }

/-- `set_scale(scale_type, root_freq)`: broadcast to all voices. -/
def MelodyLayer.set_scale (ml : MelodyLayer) (scale_type : String) (root_freq : ℚ) :
    MelodyLayer :=
  { ml with active_scale := scale_type, root_freq := root_freq,
            voices := ml.voices.map (fun kv => (kv.1, kv.2.set_scale scale_type root_freq)) }

/-- `trigger_random_voice()`: `random.choice` over the dict values (global
randomness), then trigger that voice; no-op when there are no voices. -/
def MelodyLayer.trigger_random_voice (env : MathEnv) (ml : MelodyLayer) (g : Rng) :
    MelodyLayer × Rng :=
  if ml.voices.isEmpty then (ml, g)
  else
    let c := g.choiceIdx ml.voices.length
    ({ ml with voices := ml.voices.mapIdx (fun j kv =>
        if j = c.1 then (kv.1, kv.2.trigger_note env) else kv) }, c.2)

/-- `trigger_by_sensor(sensor_id)`. -/
def MelodyLayer.trigger_by_sensor (env : MathEnv) (ml : MelodyLayer) (sensor_id : ℤ) :
    MelodyLayer :=
  if hasVoice ml.voices sensor_id then
    { ml with voices := mapVoice ml.voices sensor_id (fun v => v.trigger_note env) }
  else ml

/-- The per-voice accumulation loop of `MelodyLayer.get_samples`. -/
def melodyMixLoop (env : MathEnv) (num_samples : ℕ) (sample_rate : ℚ) :
    List (ℤ × MelodyVoice) → List ℚ → ℕ → (List ℚ × List (ℤ × MelodyVoice) × ℕ)
  | [], acc, count => (acc, [], count)
  | (k, v) :: rest, acc, count =>
    if 1/100 < v.envelope then
      let s := v.get_samples env num_samples sample_rate
      let acc' := List.zipWith (· + ·) acc s.1
      let r := melodyMixLoop env num_samples sample_rate rest acc' (count + 1)
      (r.1, (k, s.2) :: r.2.1, r.2.2)
    else
      let r := melodyMixLoop env num_samples sample_rate rest acc count
      (r.1, (k, v) :: r.2.1, r.2.2)

/-- `MelodyLayer.get_samples(num_samples, sample_rate)`: mix the active
voices, then normalize by `1/sqrt(active_count)` when more than one. -/
def MelodyLayer.get_samples (env : MathEnv) (ml : MelodyLayer) (num_samples : ℕ)
    (sample_rate : ℚ) : List ℚ × MelodyLayer :=
  let r := melodyMixLoop env num_samples sample_rate ml.voices (List.replicate num_samples 0) 0
  let active_count := r.2.2
  let output := if 1 < active_count then r.1.map (fun s => s * (1 / env.sqrt active_count)) else r.1
  (output, { ml with voices := r.2.1 })

/-! ### PercussionLayer -/

/-- `PercussionLayer` state. -/
structure PercussionLayer where
  kick_envelope : ℚ
  kick_freq : ℚ
  kick_phase : ℚ
  hat_envelope : ℚ
  hat_noise : ℚ
deriving Repr, DecidableEq

/-- Fresh `PercussionLayer()`. -/
def PercussionLayer.init : PercussionLayer := ⟨0, 60, 0, 0, 0⟩

/-- `trigger_kick()`. -/
def PercussionLayer.trigger_kick (p : PercussionLayer) : PercussionLayer :=
  { p with kick_envelope := 1, kick_freq := 150 }

/-- `trigger_hat()`. -/
def PercussionLayer.trigger_hat (p : PercussionLayer) : PercussionLayer :=
  { p with hat_envelope := 1/2 }

/-- One sample of `PercussionLayer.get_samples` (the hat consumes one global
random draw per active sample). -/
def PercussionLayer.sampleStep (env : MathEnv) (sample_rate : ℚ)
    (s : PercussionLayer × Rng) : (PercussionLayer × Rng) × ℚ :=
  let p := s.1
  let g := s.2
  let k : PercussionLayer × ℚ :=
    if 1/100 < p.kick_envelope then
      let ke := p.kick_envelope * (997/1000)
      let kf := max 40 (p.kick_freq * (999/1000))
      let kp := p.kick_phase + 2 * env.pi * kf / sample_rate
      ({ p with kick_envelope := ke, kick_freq := kf, kick_phase := kp },
       env.sin kp * ke * (1/2))
    else (p, 0)
  let p1 := k.1
  let h : (PercussionLayer × Rng) × ℚ :=
    if 1/100 < p1.hat_envelope then
      let he := p1.hat_envelope * (995/1000)
      let ug := g.next
      let noise := ug.1 * 2 - 1
      let hn := p1.hat_noise * (7/10) + noise * (3/10)
      (({ p1 with hat_envelope := he, hat_noise := hn }, ug.2), hn * he * (25/100))
    else ((p1, g), 0)
  (h.1, k.2 + h.2)

/-- The sample loop of `PercussionLayer.get_samples`. -/
def percLoop (env : MathEnv) (sample_rate : ℚ) :
    ℕ → PercussionLayer × Rng → List ℚ × (PercussionLayer × Rng)
  | 0, s => ([], s)
  | n + 1, s =>
    let t := PercussionLayer.sampleStep env sample_rate s
    let r := percLoop env sample_rate n t.1
    (t.2 :: r.1, r.2)

/-- `PercussionLayer.get_samples(num_samples, sample_rate)`. -/
def PercussionLayer.get_samples (env : MathEnv) (p : PercussionLayer) (num_samples : ℕ)
    (sample_rate : ℚ) (g : Rng) : List ℚ × (PercussionLayer × Rng) :=
  percLoop env sample_rate num_samples (p, g)

/-! ### Composer -/

/-- `Composer` state. -/
structure Composer where
  sequencer : Sequencer
  drone : DroneLayer
  arp : ArpLayer
  melody : MelodyLayer
  percussion : PercussionLayer
  last_arp_beat : ℤ
  last_melody_beat : ℤ
  arp_subdivision : ℚ
  melody_interval : ℚ
  active_scale : String
  sensor_personalities : List SensorPersonality
  lamp_personalities : List LampPersonality
  avg_battery : ℚ
  avg_nervousness : ℚ

/-- Fresh `Composer()` constructed at wall time `t0`. -/
def Composer.init (t0 : ℚ) : Composer :=
  { sequencer := Sequencer.init 72 t0
    drone := DroneLayer.init
    arp := ArpLayer.init
    melody := MelodyLayer.init
    percussion := PercussionLayer.init
    last_arp_beat := -1
    last_melody_beat := -1
    arp_subdivision := 2
    melody_interval := 4
    active_scale := "pentatonic"
    sensor_personalities := []
    lamp_personalities := []
    avg_battery := 100
    avg_nervousness := 0 }

/-- `update_from_lamps(frequencies, amplitudes, scale, personalities)`. -/
def Composer.update_from_lamps (env : MathEnv) (c : Composer)
    (frequencies amplitudes : List ℚ) (scale : String)
    (personalities : List LampPersonality) (g : Rng) : Composer × Rng :=
  let lamp_personalities := personalities
  let dr := c.drone.update_from_lamps env frequencies amplitudes lamp_personalities g
  let arp' := c.arp.update_notes frequencies
  let c1 := { c with lamp_personalities := lamp_personalities, drone := dr.1,
                     arp := arp', active_scale := scale }
  if frequencies ≠ [] then
    let root := if frequencies.any (fun f => 0 < f) then
        (match frequencies.filter (fun f => 0 < f) with
          | x :: xs => xs.foldl min x
          | [] => BASE_FREQUENCY)
      else BASE_FREQUENCY
    ({ c1 with melody := c1.melody.set_scale scale root }, dr.2)
  else (c1, dr.2)

/-- Sum of the batteries of a personality list; `none` when a battery is
`None` (the Python `sum` raises a `TypeError`). -/
def sumBatteries : List SensorPersonality → Option ℤ
  | [] => some 0
  | p :: ps => match p.battery, sumBatteries ps with
    | some b, some s => some (b + s)
    | _, _ => none

/-- Mean nervousness of a non-empty personality list. -/
def meanNervousness (ps : List SensorPersonality) : ℚ :=
  (ps.map SensorPersonality.nervousness).sum / (ps.length : ℚ)

/-- `update_from_sensors(personalities)`; `none` models the `TypeError`
raised when averaging a `None` battery. -/
def Composer.update_from_sensors (env : MathEnv) (c : Composer)
    (personalities : List SensorPersonality) : Option Composer :=
  let c1 := { c with sensor_personalities := personalities,
                     melody := c.melody.update_personalities env personalities }
  if personalities = [] then some c1
  else
    match sumBatteries personalities with
    | none => none
    | some sb =>
      let avg_battery := (sb : ℚ) / (personalities.length : ℚ)
      let avg_nervousness := meanNervousness personalities
      let sub_int : ℚ × ℚ :=
        if 1/2 < avg_nervousness then (4, 2)
        else if 1/5 < avg_nervousness then (2, 4)
        else (1, 8)
      some { c1 with avg_battery := avg_battery, avg_nervousness := avg_nervousness,
                     arp_subdivision := sub_int.1, melody_interval := sub_int.2 }

/-- `update_tempo(tempo_modifier)`. -/
def Composer.update_tempo (c : Composer) (tempo_modifier : ℚ) : Composer :=
  let base_bpm : ℚ := 72
  let nervousness_boost := 1 + c.avg_nervousness * (3/10)
  { c with sequencer := c.sequencer.set_tempo (base_bpm * tempo_modifier * nervousness_boost) }

/-- `trigger_motion(sensor_id=None)`: note the Python truthiness test
`if sensor_id and sensor_id in self.melody.voices` (both `None` and `0` take
the random branch). -/
def Composer.trigger_motion (env : MathEnv) (c : Composer) (sensor_id : Option ℤ)
    (g : Rng) : Composer × Rng :=
  let mr : MelodyLayer × Rng :=
    match sensor_id with
    | some i =>
      if i ≠ 0 ∧ hasVoice c.melody.voices i then (c.melody.trigger_by_sensor env i, g)
      else c.melody.trigger_random_voice env g
    | none => c.melody.trigger_random_voice env g
  let ug := mr.2.next
  let percussion' := if ug.1 < 3/10 then c.percussion.trigger_kick else c.percussion
  ({ c with melody := mr.1, percussion := percussion' }, ug.2)

/-- `trigger_button(button)`. -/
def Composer.trigger_button (c : Composer) (button : ℤ) : Composer :=
  { c with percussion := c.percussion.trigger_hat,
           arp := { c.arp with current_pattern := (button % (arpPatterns.length : ℤ)).toNat } }

/-- `process(num_samples, sample_rate)` at wall time `now` with global
randomness `g`: scheduled triggers, then render and mix the four layers. -/
def Composer.process (env : MathEnv) (c : Composer) (num_samples : ℕ)
    (sample_rate : ℚ) (now : ℚ) (g : Rng) : List ℚ × Composer × Rng :=
  -- timed events
  let current_beat := pyInt (c.sequencer.current_beat now * c.arp_subdivision)
  let c1 := if c.last_arp_beat < current_beat then
      { c with last_arp_beat := current_beat, arp := c.arp.trigger_next }
    else c
  let melody_beat := pyInt (c1.sequencer.current_beat now / c1.melody_interval)
  let cg : Composer × Rng :=
    if c1.last_melody_beat < melody_beat then
      let trigger_chance := 3/10 + c1.avg_nervousness * (4/10)
      let ug := g.next
      if ug.1 < trigger_chance then
        let mr := c1.melody.trigger_random_voice env ug.2
        ({ c1 with last_melody_beat := melody_beat, melody := mr.1 }, mr.2)
      else ({ c1 with last_melody_beat := melody_beat }, ug.2)
    else (c1, g)
  let c2 := cg.1
  -- generate all layers
  let dr := c2.drone.get_samples env num_samples sample_rate
  let ar := c2.arp.get_samples env num_samples sample_rate
  let me := c2.melody.get_samples env num_samples sample_rate
  let pe := c2.percussion.get_samples env num_samples sample_rate cg.2
  -- mix
  let output := List.zipWith (· + ·) (List.zipWith (· + ·) dr.1 ar.1)
    (List.zipWith (· + ·) me.1 pe.1)
  (output, { c2 with drone := dr.2, arp := ar.2, melody := me.2, percussion := pe.2.1 }, pe.2.2)

/-! ### Derived observation functions and concrete test fixtures -/

/-- The sequence of `current_freq` values produced by `k` successive
`trigger_note()` calls on a voice. -/
def triggerFreqTrace (env : MathEnv) (v : MelodyVoice) : ℕ → List ℚ
  | 0 => []
  | k + 1 =>
    let v' := v.trigger_note env
    v'.current_freq :: triggerFreqTrace env v' k

/-- Two melody voices that agree on everything `trigger_note` can observe
(all state except the stored personality's inert display fields). -/
def VoiceObsEq (v₁ v₂ : MelodyVoice) : Prop :=
  v₁.personality.pattern_type = v₂.personality.pattern_type ∧
  v₁.personality.nervousness = v₂.personality.nervousness ∧
  v₁.scale = v₂.scale ∧ v₁.root_freq = v₂.root_freq ∧
  v₁.current_degree = v₂.current_degree ∧ v₁.current_freq = v₂.current_freq ∧
  v₁.octave = v₂.octave ∧ v₁.pattern_position = v₂.pattern_position ∧
  v₁.pattern_direction = v₂.pattern_direction ∧ v₁.rng = v₂.rng

/-- A concrete abstract-math environment used to instantiate theorems on
closed inputs. -/
def zeroEnv : MathEnv := ⟨fun _ => 0, fun q => q, fun _ => 1, 314159/100000, fun _ _ => 0⟩

/-- A concrete all-zero draw stream. -/
def zeroRng : Rng := ⟨fun _ => 0, 0⟩

/-- A motion-sensor personality with a critical battery (nervousness 1). -/
def wPers1 : SensorPersonality := SensorPersonality.make 3 "hall" "SML001" (some 5)

/-- A motion-sensor personality with a low battery (nervousness 0.8). -/
def wPers2 : SensorPersonality := SensorPersonality.make 4 "porch" "SML001" (some 15)

/-- A fresh arpeggiator holding the note pool `[220, 440, 550, 660]`
(pattern index 0, i.e. pattern `[0, 1, 2, 1]`). -/
def wArp : ArpLayer := { ArpLayer.init with notes := [220, 440, 550, 660] }

/-- A concrete melody voice (fresh voice for `wPers1`). -/
def wVoice : MelodyVoice := MelodyVoice.init zeroEnv wPers1

/-- A draw stream whose every value is 0.9 (a legitimate `random()` value). -/
def wRng : Rng := ⟨fun _ => 9/10, 0⟩

/-- A composer holding two melody voices, keyed by sensor ids 0 and 5. -/
def wComposer : Composer :=
  { Composer.init 0 with
    melody := { MelodyLayer.init with voices :=
      [(0, MelodyVoice.init zeroEnv (SensorPersonality.make 0 "door" "SML001" (some 100))),
       (5, MelodyVoice.init zeroEnv (SensorPersonality.make 5 "hall" "SML001" (some 100)))] } }

/-- A drone layer with two voice slots whose second slot's target has
disappeared (the target lists hold a single entry). -/
def wDrone : DroneLayer :=
  { slots := [⟨200, 1/2, 0⟩, ⟨300, 3/10, 0⟩]
    target_frequencies := [200]
    target_amplitudes := [1/2]
    lfo_phase := 0
    lfo_speed := 15/100
    lamp_personalities := [] }

/-! ## Theorems -/

/-- C7: `Composer.update_tempo(m)` sets the clock's bpm to
`72 · m · (1 + 0.3 · meanVolatility)` clamped to `[40, 120]`, where the mean
volatility is the stored average nervousness; and `Sequencer.set_tempo`
always clamps its argument to `[40, 120]`. -/
theorem update_tempo_clamped_formula :
    (∀ (c : Composer) (m : ℚ),
      (c.update_tempo m).sequencer.bpm
        = max 40 (min 120 (72 * m * (1 + 3/10 * c.avg_nervousness)))) ∧
    (∀ (s : Sequencer) (b : ℚ), (s.set_tempo b).bpm = max 40 (min 120 b)) := by
  refine ⟨fun c m => ?_, fun s b => rfl⟩
  have h : 72 * m * (1 + c.avg_nervousness * (3/10))
      = 72 * m * (1 + 3/10 * c.avg_nervousness) := by ring
  simp only [Composer.update_tempo, Sequencer.set_tempo, h]

/-- C1: after any successful `Composer.update_from_sensors` call with a
non-empty personality list, the arp subdivision and melody interval are the
stated deterministic function of the mean nervousness: mean > 0.5 gives
4/2, 0.2 < mean ≤ 0.5 gives 2/4, mean ≤ 0.2 gives 1/8. -/
theorem update_from_sensors_scheduling (env : MathEnv) (c c' : Composer)
    (ps : List SensorPersonality) (hne : ps ≠ [])
    (h : Composer.update_from_sensors env c ps = some c') :
    c'.avg_nervousness = meanNervousness ps ∧
    (1/2 < meanNervousness ps → c'.arp_subdivision = 4 ∧ c'.melody_interval = 2) ∧
    (1/5 < meanNervousness ps ∧ meanNervousness ps ≤ 1/2 →
      c'.arp_subdivision = 2 ∧ c'.melody_interval = 4) ∧
    (meanNervousness ps ≤ 1/5 → c'.arp_subdivision = 1 ∧ c'.melody_interval = 8) := by
  rw [Composer.update_from_sensors, if_neg hne] at h
  cases hsb : sumBatteries ps with
  | none => rw [hsb] at h; exact absurd h (by simp)
  | some sb =>
    rw [hsb] at h
    dsimp only at h
    split_ifs at h with h1 h2
    · injection h with h; subst h
      exact ⟨rfl, fun _ => ⟨rfl, rfl⟩, fun ha => absurd h1 (not_lt.mpr ha.2),
        fun ha => absurd ha (not_le.mpr (by linarith))⟩
    · injection h with h; subst h
      exact ⟨rfl, fun ha => absurd ha h1, fun _ => ⟨rfl, rfl⟩,
        fun ha => absurd ha (not_le.mpr h2)⟩
    · injection h with h; subst h
      exact ⟨rfl, fun ha => absurd ha h1, fun ha => absurd ha.1 h2,
        fun _ => ⟨rfl, rfl⟩⟩

/-- Witness for C1 at a concrete input: two `SML001` motion sensors with
batteries 5 and 15 have mean nervousness 0.9, so the call selects arp
subdivision 4 and melody interval 2. -/
theorem update_from_sensors_scheduling_witness :
    ∃ c', Composer.update_from_sensors zeroEnv (Composer.init 0) [wPers1, wPers2] = some c' ∧
      c'.arp_subdivision = 4 ∧ c'.melody_interval = 2 := by
  obtain ⟨c', hc'⟩ : ∃ c',
      Composer.update_from_sensors zeroEnv (Composer.init 0) [wPers1, wPers2] = some c' := by
    simp only [Composer.update_from_sensors,
      if_neg (by decide : ¬([wPers1, wPers2] = ([] : List SensorPersonality)))]
    exact ⟨_, rfl⟩
  refine ⟨c', hc',
    (update_from_sensors_scheduling zeroEnv (Composer.init 0) c' [wPers1, wPers2]
      (by decide) hc').2.1 ?_⟩
  have h1 : wPers1.nervousness = 1 := rfl
  have h2 : wPers2.nervousness = 4/5 := rfl
  simp only [meanNervousness, List.map_cons, List.map_nil, List.sum_cons, List.sum_nil,
    List.length_cons, List.length_nil, h1, h2]
  norm_num

/-- C5: after `ArpLayer.update_notes` the note pool is the sorted set of the
distinct strictly positive input frequencies truncated to the first 4; and on
the pool `[220, 440, 550, 660]` with pattern `[0, 1, 2, 1]`, four successive
`trigger_next` calls give current notes `220, 440, 550, 440`, each valid hit
resetting the envelope to 1. -/
theorem arp_notes_sorted_set_and_pattern :
    (∀ (a : ArpLayer) (frequencies : List ℚ),
      (a.update_notes frequencies).notes
        = ((frequencies.toFinset.filter (fun f => 0 < f)).sort (· ≤ ·)).take 4) ∧
    ((wArp.trigger_next.current_note = 220 ∧ wArp.trigger_next.envelope = 1) ∧
     (wArp.trigger_next.trigger_next.current_note = 440 ∧
      wArp.trigger_next.trigger_next.envelope = 1) ∧
     (wArp.trigger_next.trigger_next.trigger_next.current_note = 550 ∧
      wArp.trigger_next.trigger_next.trigger_next.envelope = 1) ∧
     (wArp.trigger_next.trigger_next.trigger_next.trigger_next.current_note = 440 ∧
      wArp.trigger_next.trigger_next.trigger_next.trigger_next.envelope = 1)) := by
  constructor
  · intro a freqs
    simp only [ArpLayer.update_notes]
    congr 1
    have key : freqs.toFinset.filter (fun f => 0 < f)
        = ((freqs.filter (fun f => 0 < f)).dedup).toFinset := by
      ext x
      simp [List.mem_filter]
    have hperm : List.Perm (((freqs.filter (fun f => 0 < f)).dedup).insertionSort (· ≤ ·))
        ((freqs.toFinset.filter (fun f => 0 < f)).sort (· ≤ ·)) := by
      refine (List.perm_insertionSort _ _).trans ?_
      rw [key]
      exact (List.toFinset_toList (List.nodup_dedup _)).symm.trans
        (Finset.sort_perm_toList _ _).symm
    exact List.eq_of_perm_of_sorted hperm (List.sorted_insertionSort _ _)
      (Finset.sort_sorted _ _)
  · exact ⟨⟨rfl, rfl⟩, ⟨rfl, rfl⟩, ⟨rfl, rfl⟩, rfl, rfl⟩

/-- Helper: the sample loop of `MelodyVoice.get_samples` never changes the
`octave` field. -/
theorem melodyVoiceLoop_octave (env : MathEnv) (sr decay : ℚ) :
    ∀ (n : ℕ) (v : MelodyVoice), ((melodyVoiceLoop env sr decay n v).2).octave = v.octave := by
  intro n
  induction n with
  | zero => intro v; rfl
  | succ n ih =>
    intro v
    simp only [melodyVoiceLoop]
    rw [ih]
    dsimp only [MelodyVoice.sampleStep]
    split_ifs <;> rfl

/-- C4: every `trigger_note` call leaves the scale degree inside
`[0, scaleLength - 1]` (clamped, no wraparound), sets the frequency to
`root · 2^(semitone/12) · 2^octave` with `semitone` the scale entry at the
new degree, and resets the envelope to 1 unconditionally. -/
theorem trigger_note_clamp_freq_envelope (env : MathEnv) (v : MelodyVoice)
    (h : v.scale ≠ []) :
    0 ≤ (v.trigger_note env).current_degree ∧
    (v.trigger_note env).current_degree ≤ (v.scale.length : ℤ) - 1 ∧
    (v.trigger_note env).current_freq
      = v.root_freq
        * env.pow2 ((v.scale.getD (v.trigger_note env).current_degree.toNat 0 : ℚ) / 12)
        * (2 : ℚ) ^ v.octave ∧
    (v.trigger_note env).envelope = 1 := by
  have hlen : 1 ≤ (v.scale.length : ℤ) := by
    have := List.length_pos.mpr h
    omega
  refine ⟨le_max_left 0 _, max_le (by omega) (min_le_left _ _), rfl, rfl⟩

/-- Witness for C4 on a fresh concrete voice with the pentatonic scale. -/
theorem trigger_note_clamp_freq_envelope_witness :
    0 ≤ (wVoice.trigger_note zeroEnv).current_degree ∧
    (wVoice.trigger_note zeroEnv).current_degree ≤ (wVoice.scale.length : ℤ) - 1 ∧
    (wVoice.trigger_note zeroEnv).current_freq
      = wVoice.root_freq
        * zeroEnv.pow2 ((wVoice.scale.getD (wVoice.trigger_note zeroEnv).current_degree.toNat 0 : ℚ) / 12)
        * (2 : ℚ) ^ wVoice.octave ∧
    (wVoice.trigger_note zeroEnv).envelope = 1 :=
  trigger_note_clamp_freq_envelope zeroEnv wVoice (by decide)

/-- C10: the `octave` field of a melody voice is 1 at construction and is
not modified by `set_scale`, `trigger_note` or `get_samples`; hence every
frequency produced by `trigger_note` is `root · 2^(semitone/12) · 2`, and no
personality octave offset enters the melody pitch. -/
theorem melody_voice_octave_fixed (env : MathEnv) :
    (∀ p, (MelodyVoice.init env p).octave = 1) ∧
    (∀ (v : MelodyVoice) st r, (v.set_scale st r).octave = v.octave) ∧
    (∀ v : MelodyVoice, (v.trigger_note env).octave = v.octave) ∧
    (∀ (v : MelodyVoice) (n : ℕ) (sr : ℚ), ((v.get_samples env n sr).2).octave = v.octave) ∧
    (∀ v : MelodyVoice, v.octave = 1 →
      (v.trigger_note env).current_freq
        = v.root_freq
          * env.pow2 ((v.scale.getD (v.trigger_note env).current_degree.toNat 0 : ℚ) / 12)
          * 2) := by
  refine ⟨fun p => rfl, fun v st r => rfl, fun v => rfl, fun v n sr => ?_, fun v h => ?_⟩
  · unfold MelodyVoice.get_samples
    split_ifs
    · rfl
    · exact melodyVoiceLoop_octave env sr _ n v
  · rw [show (v.trigger_note env).current_freq
        = v.root_freq
          * env.pow2 ((v.scale.getD (v.trigger_note env).current_degree.toNat 0 : ℚ) / 12)
          * (2 : ℚ) ^ v.octave from rfl, h, zpow_one]

/-- Witness for C10's conditional conjunct at the concrete fresh voice. -/
theorem melody_voice_octave_fixed_witness :
    (wVoice.trigger_note zeroEnv).current_freq
      = wVoice.root_freq
        * zeroEnv.pow2 ((wVoice.scale.getD (wVoice.trigger_note zeroEnv).current_degree.toNat 0 : ℚ) / 12)
        * 2 :=
  (melody_voice_octave_fixed zeroEnv).2.2.2.2 wVoice rfl

/-- Helper: one percussion sample keeps the kick frequency at or above 40
and never increases it (when it starts at or above 40). -/
theorem percStep_kick_freq (env : MathEnv) (sr : ℚ) (s : PercussionLayer × Rng)
    (h : 40 ≤ s.1.kick_freq) :
    40 ≤ (PercussionLayer.sampleStep env sr s).1.1.kick_freq ∧
    (PercussionLayer.sampleStep env sr s).1.1.kick_freq ≤ s.1.kick_freq := by
  dsimp only [PercussionLayer.sampleStep]
  split_ifs with h1 h2
  · exact ⟨le_max_left _ _, max_le h (by linarith)⟩
  · exact ⟨le_max_left _ _, max_le h (by linarith)⟩
  · exact ⟨h, le_refl _⟩
  · exact ⟨h, le_refl _⟩

/-- Helper: the percussion sample loop splits at any intermediate sample. -/
theorem percLoop_add (env : MathEnv) (sr : ℚ) :
    ∀ (k m : ℕ) (s : PercussionLayer × Rng),
      (percLoop env sr (k + m) s).2 = (percLoop env sr m (percLoop env sr k s).2).2 := by
  intro k
  induction k with
  | zero => intro m s; rw [Nat.zero_add]; rfl
  | succ k ih =>
    intro m s
    rw [Nat.succ_add]
    simp only [percLoop]
    exact ih m _

/-- Helper: over any number of samples, the kick frequency stays at or above
40 and does not increase. -/
theorem percLoop_kick_inv (env : MathEnv) (sr : ℚ) :
    ∀ (n : ℕ) (s : PercussionLayer × Rng), 40 ≤ s.1.kick_freq →
      40 ≤ (percLoop env sr n s).2.1.kick_freq ∧
      (percLoop env sr n s).2.1.kick_freq ≤ s.1.kick_freq := by
  intro n
  induction n with
  | zero => exact fun s h => ⟨h, le_refl _⟩
  | succ n ih =>
    intro s h
    simp only [percLoop]
    obtain ⟨h40, hle⟩ := percStep_kick_freq env sr s h
    obtain ⟨ih40, ihle⟩ := ih _ h40
    exact ⟨ih40, ihle.trans hle⟩

/-- C8: `trigger_kick` resets the kick envelope to 1 and the kick frequency to
150; and between triggers the per-sample kick frequency is monotonically
non-increasing and never drops below 40 (stated over the sample loop that
`get_samples` runs, whose final state `get_samples` returns). -/
theorem kick_freq_monotone_bounded (env : MathEnv) (sr : ℚ) :
    (∀ p : PercussionLayer, p.trigger_kick.kick_envelope = 1 ∧ p.trigger_kick.kick_freq = 150) ∧
    (∀ (s : PercussionLayer × Rng), 40 ≤ s.1.kick_freq →
      ∀ k m : ℕ, k ≤ m →
        40 ≤ (percLoop env sr k s).2.1.kick_freq ∧
        (percLoop env sr m s).2.1.kick_freq ≤ (percLoop env sr k s).2.1.kick_freq) ∧
    (∀ (p : PercussionLayer) (n : ℕ) (g : Rng),
      (p.get_samples env n sr g).2 = (percLoop env sr n (p, g)).2) := by
  refine ⟨fun p => ⟨rfl, rfl⟩, fun s h k m hkm => ?_, fun p n g => rfl⟩
  obtain ⟨h40, _⟩ := percLoop_kick_inv env sr k s h
  refine ⟨h40, ?_⟩
  have hm : m = k + (m - k) := by omega
  rw [hm, percLoop_add]
  exact (percLoop_kick_inv env sr (m - k) _ h40).2

/-- Witness for C8: from the freshly constructed percussion layer
(kick frequency 60 Hz), samples 1 and 3 of a run satisfy the bound and the
monotonicity. -/
theorem kick_freq_monotone_bounded_witness :
    40 ≤ (percLoop zeroEnv 44100 1 (PercussionLayer.init, zeroRng)).2.1.kick_freq ∧
    (percLoop zeroEnv 44100 3 (PercussionLayer.init, zeroRng)).2.1.kick_freq
      ≤ (percLoop zeroEnv 44100 1 (PercussionLayer.init, zeroRng)).2.1.kick_freq :=
  (kick_freq_monotone_bounded zeroEnv 44100).2.1 (PercussionLayer.init, zeroRng)
    (by norm_num [PercussionLayer.init]) 1 3 (by norm_num)

/-- Helper: `trigger_note` observes only the fields related by
`VoiceObsEq`, and preserves that relation. -/
theorem trigger_note_obsEq (env : MathEnv) {v₁ v₂ : MelodyVoice} (h : VoiceObsEq v₁ v₂) :
    VoiceObsEq (v₁.trigger_note env) (v₂.trigger_note env) := by
  obtain ⟨hp, hn, hs, hr, hd, hf, ho, hpp, hpd, hg⟩ := h
  unfold VoiceObsEq MelodyVoice.trigger_note
  dsimp only
  rw [hp, hn, hs, hr, hd, ho, hpp, hpd, hg]
  exact ⟨rfl, rfl, rfl, rfl, rfl, rfl, rfl, rfl, rfl, rfl⟩

/-- Helper: `set_scale` preserves `VoiceObsEq`. -/
theorem set_scale_obsEq {v₁ v₂ : MelodyVoice} (h : VoiceObsEq v₁ v₂) (st : String) (r : ℚ) :
    VoiceObsEq (v₁.set_scale st r) (v₂.set_scale st r) := by
  obtain ⟨hp, hn, hs, hr, hd, hf, ho, hpp, hpd, hg⟩ := h
  unfold VoiceObsEq MelodyVoice.set_scale
  dsimp only
  exact ⟨hp, hn, rfl, rfl, hd, hf, ho, hpp, hpd, hg⟩

/-- Helper: observationally equal voices produce identical frequency traces. -/
theorem triggerFreqTrace_obsEq (env : MathEnv) :
    ∀ (k : ℕ) {v₁ v₂ : MelodyVoice}, VoiceObsEq v₁ v₂ →
      triggerFreqTrace env v₁ k = triggerFreqTrace env v₂ k := by
  intro k
  induction k with
  | zero => intro v₁ v₂ _; rfl
  | succ k ih =>
    intro v₁ v₂ h
    have h' := trigger_note_obsEq env h
    simp only [triggerFreqTrace]
    rw [h'.2.2.2.2.2.1, ih h']

/-- Helper: two fresh voices for personalities that differ only in the
display name are observationally equal. -/
theorem init_obsEq (env : MathEnv) (i : ℤ) (n₁ n₂ m : String) (b : Option ℤ) :
    VoiceObsEq (MelodyVoice.init env (SensorPersonality.make i n₁ m b))
               (MelodyVoice.init env (SensorPersonality.make i n₂ m b)) := by
  unfold VoiceObsEq MelodyVoice.init SensorPersonality.make
  exact ⟨rfl, rfl, rfl, rfl, rfl, rfl, rfl, rfl, rfl, rfl⟩

/-- C6: personality derivation is a pure function of the stable input fields
(the display name is not observed), for sensors and lamps alike; and the
trigger-note frequency trace of a melody voice is a deterministic function of
the seed/model/battery inputs, the scale and the root - identical inputs give
identical traces. -/
theorem personality_and_voice_determinism (env : MathEnv) :
    (∀ (i : ℤ) (n₁ n₂ m : String) (b : Option ℤ),
      (SensorPersonality.make i n₁ m b).instrument_type
        = (SensorPersonality.make i n₂ m b).instrument_type ∧
      (SensorPersonality.make i n₁ m b).nervousness
        = (SensorPersonality.make i n₂ m b).nervousness ∧
      (SensorPersonality.make i n₁ m b).pattern_type
        = (SensorPersonality.make i n₂ m b).pattern_type ∧
      (SensorPersonality.make i n₁ m b).melody_seed
        = (SensorPersonality.make i n₂ m b).melody_seed) ∧
    (∀ (li : ℤ) (n₁ n₂ mid lt uid : String),
      (LampPersonality.make li n₁ mid lt uid).waveform
        = (LampPersonality.make li n₂ mid lt uid).waveform ∧
      (LampPersonality.make li n₁ mid lt uid).richness
        = (LampPersonality.make li n₂ mid lt uid).richness) ∧
    (∀ (i : ℤ) (n₁ n₂ m : String) (b : Option ℤ) (st : String) (r : ℚ) (k : ℕ),
      triggerFreqTrace env
          ((MelodyVoice.init env (SensorPersonality.make i n₁ m b)).set_scale st r) k
        = triggerFreqTrace env
          ((MelodyVoice.init env (SensorPersonality.make i n₂ m b)).set_scale st r) k) := by
  refine ⟨fun i n₁ n₂ m b => ⟨rfl, rfl, rfl, rfl⟩, fun li n₁ n₂ mid lt uid => ⟨rfl, rfl⟩,
    fun i n₁ n₂ m b st r k => ?_⟩
  exact triggerFreqTrace_obsEq env k (set_scale_obsEq (init_obsEq env i n₁ n₂ m b) st r)

/-- Helper: summing two all-zero buffers gives an all-zero buffer. -/
theorem zipWith_add_replicate_zero :
    ∀ n : ℕ, List.zipWith (· + ·) (List.replicate n (0:ℚ)) (List.replicate n 0)
      = List.replicate n 0 := by
  intro n
  induction n with
  | zero => rfl
  | succ n ih => simp only [List.replicate_succ, List.zipWith_cons_cons, ih, add_zero]

/-- Helper: the percussion loop is the identity, with an all-zero output,
while both envelopes are at or below the `0.01` gate. -/
theorem percLoop_silent (env : MathEnv) (sr : ℚ) :
    ∀ (n : ℕ) (p : PercussionLayer) (g : Rng),
      p.kick_envelope ≤ 1/100 → p.hat_envelope ≤ 1/100 →
      percLoop env sr n (p, g) = (List.replicate n 0, (p, g)) := by
  intro n
  induction n with
  | zero => intros; rfl
  | succ n ih =>
    intro p g hk hh
    have hstep : PercussionLayer.sampleStep env sr (p, g) = ((p, g), 0) := by
      dsimp only [PercussionLayer.sampleStep]
      rw [if_neg (not_lt.mpr hk)]
      dsimp only
      rw [if_neg (not_lt.mpr hh)]
      norm_num
    simp only [percLoop, hstep, ih p g hk hh]
    rfl

/-- Helper: the slot loop contributes nothing when the target list is empty
(the `break` fires immediately). -/
theorem droneSlotLoop_nil_targets (env : MathEnv) (sr lfo : ℚ) (ta : List ℚ)
    (lps : List LampPersonality) :
    ∀ (j : ℕ) (slots : List DroneSlot),
      droneSlotLoop env sr lfo [] ta lps j slots = (slots, 0) := by
  intro j slots
  cases slots with
  | nil => rfl
  | cons s rest => simp [droneSlotLoop]

/-- Helper: the drone sample loop emits zeros when there are no target
frequencies. -/
theorem droneLoop_no_targets (env : MathEnv) (sr : ℚ) :
    ∀ (n : ℕ) (d : DroneLayer), d.target_frequencies = [] →
      (droneLoop env sr n d).1 = List.replicate n 0 := by
  intro n
  induction n with
  | zero => intros; rfl
  | succ n ih =>
    intro d h
    have hstep1 : (d.sampleStep env sr).2 = 0 := by
      simp only [DroneLayer.sampleStep, h, droneSlotLoop_nil_targets]
    have hstep2 : (d.sampleStep env sr).1.target_frequencies = [] := by
      simp only [DroneLayer.sampleStep, h]
    simp only [droneLoop, hstep1, ih _ hstep2]
    rfl

/-- Helper: `trigger_next` on an empty note pool is a no-op. -/
theorem arp_init_trigger_next : ArpLayer.init.trigger_next = ArpLayer.init := rfl

/-- Helper: triggering a random voice on an empty melody layer is a no-op. -/
theorem melody_init_trigger_random (env : MathEnv) (g : Rng) :
    MelodyLayer.init.trigger_random_voice env g = (MelodyLayer.init, g) := rfl

/-- Helper: the fresh drone layer renders zeros. -/
theorem drone_init_get_samples (env : MathEnv) (sr : ℚ) (n : ℕ) :
    DroneLayer.init.get_samples env n sr = (List.replicate n 0, DroneLayer.init) := by
  unfold DroneLayer.get_samples
  rw [if_pos (show DroneLayer.init.slots = [] from rfl)]

/-- Helper: the fresh arp layer renders zeros (its current note is 0). -/
theorem arp_init_get_samples (env : MathEnv) (sr : ℚ) (n : ℕ) :
    ArpLayer.init.get_samples env n sr = (List.replicate n 0, ArpLayer.init) := by
  unfold ArpLayer.get_samples
  rw [if_pos (show ArpLayer.init.current_note ≤ 0 from le_rfl)]

/-- Helper: the fresh melody layer (no voices) renders zeros. -/
theorem melody_init_get_samples (env : MathEnv) (sr : ℚ) (n : ℕ) :
    MelodyLayer.init.get_samples env n sr = (List.replicate n 0, MelodyLayer.init) := rfl

/-- Helper: the fresh percussion layer renders zeros and keeps its state. -/
theorem percussion_init_get_samples (env : MathEnv) (sr : ℚ) (n : ℕ) (g : Rng) :
    PercussionLayer.init.get_samples env n sr g
      = (List.replicate n 0, (PercussionLayer.init, g)) := by
  unfold PercussionLayer.get_samples
  exact percLoop_silent env sr n PercussionLayer.init g
    (by norm_num [PercussionLayer.init]) (by norm_num [PercussionLayer.init])

/-- C2: a freshly constructed `Composer` on which no update or trigger method
has ever been called produces an all-zero buffer of exactly `n` samples from
`process`, for every wall time and every sequence of global random draws;
and any `DroneLayer` with no configured targets returns exactly `m` zeros
from `get_samples`. -/
theorem process_fresh_silent (env : MathEnv) (t0 now sr : ℚ) (g : Rng) (n : ℕ) :
    (Composer.process env (Composer.init t0) n sr now g).1 = List.replicate n 0 ∧
    (∀ (d : DroneLayer) (m : ℕ), d.target_frequencies = [] →
      (d.get_samples env m sr).1 = List.replicate m 0) := by
  constructor
  · simp only [Composer.process, Composer.init]
    split_ifs <;>
      simp only [arp_init_trigger_next, melody_init_trigger_random,
        drone_init_get_samples, arp_init_get_samples, melody_init_get_samples,
        percussion_init_get_samples, zipWith_add_replicate_zero]
  · intro d m h
    unfold DroneLayer.get_samples
    split_ifs with hs
    · rfl
    · exact droneLoop_no_targets env sr m d h

/-- Witness for C2's conditional drone conjunct: the fresh drone layer. -/
theorem process_fresh_silent_witness :
    (DroneLayer.init.get_samples zeroEnv 3 44100).1 = List.replicate 3 0 :=
  (process_fresh_silent zeroEnv 0 0 44100 zeroRng 3).2 DroneLayer.init 3 rfl

/-- Helper: `mkNewSlots` produces one slot per remaining target, pointwise:
the target frequency, amplitude 0, and the next unused draw scaled to
`[0, 2π)` as phase. -/
theorem mkNewSlots_get (env : MathEnv) :
    ∀ (fs : List ℚ) (g : Rng) (k : ℕ),
      (mkNewSlots env fs g).1.get? k
        = (fs.get? k).map (fun f => ⟨f, 0, g.stream (g.pos + k) * 2 * env.pi⟩) := by
  intro fs
  induction fs with
  | nil => intro g k; cases k <;> rfl
  | cons f fs ih =>
    intro g k
    cases k with
    | zero => rfl
    | succ k =>
      simp only [mkNewSlots, Rng.next, List.get?_cons_succ, ih, Nat.add_succ, Nat.succ_add]

/-- Helper: `mkNewSlots` produces exactly one slot per remaining target. -/
theorem mkNewSlots_length (env : MathEnv) :
    ∀ (fs : List ℚ) (g : Rng), (mkNewSlots env fs g).1.length = fs.length := by
  intro fs
  induction fs with
  | nil => intro g; rfl
  | cons f fs ih => intro g; simp only [mkNewSlots, List.length_cons, ih]

/-- Helper: the slot loop leaves every slot at a position at or beyond the
target-frequency list untouched (the `break`). -/
theorem droneSlotLoop_frozen (env : MathEnv) (sr lfo : ℚ) (tf ta : List ℚ)
    (lps : List LampPersonality) :
    ∀ (slots : List DroneSlot) (j₀ k : ℕ), tf.length ≤ j₀ + k →
      (droneSlotLoop env sr lfo tf ta lps j₀ slots).1.get? k = slots.get? k := by
  intro slots
  induction slots with
  | nil => intro j₀ k _; rfl
  | cons s rest ih =>
    intro j₀ k hk
    simp only [droneSlotLoop]
    split_ifs with h
    · cases k with
      | zero => omega
      | succ k =>
        simp only [List.get?_cons_succ]
        exact ih (j₀ + 1) k (by omega)
    · rfl

/-- Helper: the drone sample loop leaves every slot at or beyond the target
list untouched, over any number of samples. -/
theorem droneLoop_frozen (env : MathEnv) (sr : ℚ) :
    ∀ (n : ℕ) (d : DroneLayer) (k : ℕ), d.target_frequencies.length ≤ k →
      ((droneLoop env sr n d).2).slots.get? k = d.slots.get? k := by
  intro n
  induction n with
  | zero => intro d k _; rfl
  | succ n ih =>
    intro d k hk
    simp only [droneLoop]
    have htf : (d.sampleStep env sr).1.target_frequencies = d.target_frequencies := rfl
    rw [ih _ k (by rw [htf]; exact hk)]
    dsimp only [DroneLayer.sampleStep]
    exact droneSlotLoop_frozen env sr _ _ _ _ d.slots 0 k (by omega)

/-- C3 (amended): `update_from_lamps` never shrinks the voice-slot list and
grows it to the (truncated-to-6) target length; existing slots are untouched;
each new slot starts at its target frequency with amplitude 0 and a fresh
random draw scaled to `[0, 2π)` as phase; and a slot whose index is at or
beyond the current target list is not removed but skipped by rendering: its
stored state (in particular its amplitude) is left exactly unchanged by
`get_samples`. -/
theorem drone_slots_grow_never_shrink (env : MathEnv) (d : DroneLayer)
    (fs as : List ℚ) (ps : List LampPersonality) (g : Rng) :
    (d.slots.length ≤ ((d.update_from_lamps env fs as ps g).1).slots.length ∧
     ((d.update_from_lamps env fs as ps g).1).slots.length
       = max d.slots.length (fs.take 6).length ∧
     (∀ j, j < d.slots.length →
       ((d.update_from_lamps env fs as ps g).1).slots.get? j = d.slots.get? j) ∧
     (∀ j, d.slots.length ≤ j →
       ((d.update_from_lamps env fs as ps g).1).slots.get? j
         = ((fs.take 6).get? j).map
             (fun f => ⟨f, 0, g.stream (g.pos + (j - d.slots.length)) * 2 * env.pi⟩))) ∧
    (∀ (d₂ : DroneLayer) (n : ℕ) (sr : ℚ) (k : ℕ), d₂.target_frequencies.length ≤ k →
      ((d₂.get_samples env n sr).2).slots.get? k = d₂.slots.get? k) := by
  have hlen : ((d.update_from_lamps env fs as ps g).1).slots.length
      = d.slots.length + ((fs.take 6).drop d.slots.length).length := by
    dsimp only [DroneLayer.update_from_lamps]
    rw [List.length_append, mkNewSlots_length]
  refine ⟨⟨?_, ?_, ?_, ?_⟩, ?_⟩
  · rw [hlen]; omega
  · rw [hlen, List.length_drop]; omega
  · intro j hj
    dsimp only [DroneLayer.update_from_lamps]
    exact List.get?_append hj
  · intro j hj
    dsimp only [DroneLayer.update_from_lamps]
    rw [List.get?_append_right hj, mkNewSlots_get, List.get?_drop]
    congr 2
    omega
  · intro d₂ n sr k hk
    unfold DroneLayer.get_samples
    split_ifs
    · rfl
    · exact droneLoop_frozen env sr n d₂ k hk

/-- Witness for C3 (amended) on concrete inputs: growing the fresh drone
layer with two targets does not shrink it, and the first new slot starts at
the first target frequency with amplitude 0 and the first draw as phase. -/
theorem drone_slots_grow_never_shrink_witness :
    DroneLayer.init.slots.length
      ≤ ((DroneLayer.init.update_from_lamps zeroEnv [100, 200] [1/2, 1/2] [] zeroRng).1).slots.length ∧
    ((DroneLayer.init.update_from_lamps zeroEnv [100, 200] [1/2, 1/2] [] zeroRng).1).slots.get? 0
      = ((([100, 200] : List ℚ).take 6).get? 0).map
          (fun f => ⟨f, 0,
            zeroRng.stream (zeroRng.pos + (0 - DroneLayer.init.slots.length)) * 2 * zeroEnv.pi⟩) :=
  ⟨((drone_slots_grow_never_shrink zeroEnv DroneLayer.init [100, 200] [1/2, 1/2] [] zeroRng).1).1,
   ((drone_slots_grow_never_shrink zeroEnv DroneLayer.init [100, 200] [1/2, 1/2] [] zeroRng).1).2.2.2
     0 (by decide)⟩

/-- Counterexample for C3 as stated: in `wDrone` the second slot's target has
disappeared (index 1, target list length 1); after a 5-sample `get_samples`
call its stored amplitude is still exactly 0.3 - it did not move toward
zero at all, contradicting "its rendered amplitude decays toward zero during
subsequent get_samples calls". -/
theorem drone_stale_slot_does_not_decay :
    (((wDrone.get_samples zeroEnv 5 44100).2).slots.get? 1).map DroneSlot.amp
      = some (3/10) ∧
    (wDrone.slots.get? 1).map DroneSlot.amp = some (3/10) ∧
    ¬ (∃ q, (((wDrone.get_samples zeroEnv 5 44100).2).slots.get? 1).map DroneSlot.amp
          = some q ∧ |q| < |(3/10 : ℚ)|) := by
  refine ⟨rfl, rfl, ?_⟩
  rintro ⟨q, hq, hlt⟩
  rw [show (((wDrone.get_samples zeroEnv 5 44100).2).slots.get? 1).map DroneSlot.amp
      = some (3/10) from rfl] at hq
  injection hq with hq
  subst hq
  exact absurd hlt (lt_irrefl _)

/-- Helper: `mapIdx` pointwise via `get?`. -/
theorem mapIdx_get? {α β : Type _} (l : List α) (f : ℕ → α → β) (j : ℕ) :
    (l.mapIdx f).get? j = (l.get? j).map (f j) := by
  by_cases h : j < l.length
  · have h' : j < (l.mapIdx f).length := by simpa using h
    rw [List.get?_eq_get h, List.get?_eq_get h', List.get_mapIdx l f j h]
    rfl
  · have h1 : l.length ≤ j := not_lt.mp h
    rw [List.get?_eq_none.mpr h1, List.get?_eq_none.mpr (by simpa using h1)]
    rfl

/-- Helper: updating the voice stored under key `i` leaves lookups of other
keys unchanged. -/
theorem lookupVoice_mapVoice_ne (vs : List (ℤ × MelodyVoice)) (i j : ℤ) (hij : j ≠ i)
    (f : MelodyVoice → MelodyVoice) :
    lookupVoice (mapVoice vs i f) j = lookupVoice vs j := by
  induction vs with
  | nil => rfl
  | cons kv rest ih =>
    unfold mapVoice lookupVoice at *
    simp only [List.map_cons]
    by_cases hk : kv.1 = i
    · have hkj : ¬ kv.1 = j := fun hkj => hij (hkj ▸ hk)
      rw [if_pos hk, List.find?_cons_of_neg _ (by simpa using hkj),
        List.find?_cons_of_neg _ (by simpa using hkj)]
      exact ih
    · rw [if_neg hk]
      by_cases hkj : kv.1 = j
      · rw [List.find?_cons_of_pos _ (by simpa using hkj),
          List.find?_cons_of_pos _ (by simpa using hkj)]
      · rw [List.find?_cons_of_neg _ (by simpa using hkj),
          List.find?_cons_of_neg _ (by simpa using hkj)]
        exact ih

/-- Helper: updating the voice stored under key `i` maps the lookup of `i`. -/
theorem lookupVoice_mapVoice_eq (vs : List (ℤ × MelodyVoice)) (i : ℤ)
    (f : MelodyVoice → MelodyVoice) :
    lookupVoice (mapVoice vs i f) i = (lookupVoice vs i).map f := by
  induction vs with
  | nil => rfl
  | cons kv rest ih =>
    unfold mapVoice lookupVoice at *
    simp only [List.map_cons]
    by_cases hk : kv.1 = i
    · rw [if_pos hk, List.find?_cons_of_pos _ (by simpa using hk),
        List.find?_cons_of_pos _ (by simpa using hk)]
      rfl
    · rw [if_neg hk, List.find?_cons_of_neg _ (by simpa using hk),
        List.find?_cons_of_neg _ (by simpa using hk)]
      exact ih

/-- Helper: a valid random draw picks an index inside the list. -/
theorem choiceIdx_lt (g : Rng) (hg : Rng.Valid g) (len : ℕ) (hlen : 0 < len) :
    (g.choiceIdx len).1 < len := by
  dsimp only [Rng.choiceIdx, Rng.next]
  obtain ⟨h0, h1⟩ := hg g.pos
  have hq0 : (0:ℚ) ≤ g.stream g.pos * len := by positivity
  have hlen' : (0:ℚ) < (len:ℚ) := by exact_mod_cast hlen
  have hflt : ⌊g.stream g.pos * (len:ℚ)⌋ < (len:ℤ) := by
    rw [Int.floor_lt]
    push_cast
    nlinarith [mul_pos (sub_pos.mpr h1) hlen']
  rw [pyInt, if_neg (not_lt.mpr hq0)]
  omega

/-- Helper: `trigger_random_voice` is a no-op on an empty voice dict, and
otherwise consumes one global draw to trigger exactly one stored voice. -/
theorem trigger_random_voice_spec (env : MathEnv) (ml : MelodyLayer) (g : Rng) :
    (ml.voices = [] → ml.trigger_random_voice env g = (ml, g)) ∧
    (Rng.Valid g → ml.voices ≠ [] →
      ∃ idx : ℕ, idx < ml.voices.length ∧
        (ml.trigger_random_voice env g).2 = ⟨g.stream, g.pos + 1⟩ ∧
        (∀ j : ℕ, j ≠ idx →
          ((ml.trigger_random_voice env g).1).voices.get? j = ml.voices.get? j) ∧
        ((ml.trigger_random_voice env g).1).voices.get? idx
          = (ml.voices.get? idx).map (fun kv => (kv.1, kv.2.trigger_note env))) := by
  constructor
  · intro h
    unfold MelodyLayer.trigger_random_voice
    rw [if_pos (by rw [h]; rfl)]
  · intro hg hne
    have hlen : 0 < ml.voices.length := List.length_pos.mpr hne
    unfold MelodyLayer.trigger_random_voice
    rw [if_neg (by simpa [List.isEmpty_iff] using hne)]
    refine ⟨(g.choiceIdx ml.voices.length).1, choiceIdx_lt g hg _ hlen, rfl, ?_, ?_⟩
    · intro j hj
      rw [mapIdx_get?]
      simp only [if_neg hj]
      cases ml.voices.get? j <;> rfl
    · rw [mapIdx_get?]
      simp

/-- C9 (amended): `trigger_motion(sourceId)` triggers exactly the matching
melody voice when `sourceId` is a nonzero id with an existing voice (Python
truthiness also sends id 0 to the random branch); when `sourceId` is absent,
zero, or unknown it triggers one random existing voice (a no-op if none
exist); and the kick fires exactly when the dedicated global draw consumed
by the kick check is below 0.3. -/
theorem trigger_motion_branches (env : MathEnv) (c : Composer) (g : Rng) :
    (∀ i : ℤ, i ≠ 0 → hasVoice c.melody.voices i = true →
      ((Composer.trigger_motion env c (some i) g).1.melody.voices
          = mapVoice c.melody.voices i (fun v => v.trigger_note env)) ∧
      (∀ j : ℤ, j ≠ i →
        lookupVoice ((Composer.trigger_motion env c (some i) g).1.melody.voices) j
          = lookupVoice c.melody.voices j) ∧
      (lookupVoice ((Composer.trigger_motion env c (some i) g).1.melody.voices) i
          = (lookupVoice c.melody.voices i).map (fun v => v.trigger_note env)) ∧
      ((Composer.trigger_motion env c (some i) g).1.percussion
          = if g.stream g.pos < 3/10 then c.percussion.trigger_kick else c.percussion)) ∧
    (∀ sid : Option ℤ,
      (sid = none ∨ sid = some 0 ∨
        (∃ i, sid = some i ∧ hasVoice c.melody.voices i = false)) →
      (c.melody.voices = [] →
        ((Composer.trigger_motion env c sid g).1.melody = c.melody ∧
         (Composer.trigger_motion env c sid g).1.percussion
           = if g.stream g.pos < 3/10 then c.percussion.trigger_kick else c.percussion)) ∧
      (Rng.Valid g → c.melody.voices ≠ [] →
        ∃ idx : ℕ, idx < c.melody.voices.length ∧
          (∀ j : ℕ, j ≠ idx →
            ((Composer.trigger_motion env c sid g).1.melody.voices).get? j
              = c.melody.voices.get? j) ∧
          (((Composer.trigger_motion env c sid g).1.melody.voices).get? idx
            = (c.melody.voices.get? idx).map (fun kv => (kv.1, kv.2.trigger_note env))) ∧
          ((Composer.trigger_motion env c sid g).1.percussion
            = if g.stream (g.pos + 1) < 3/10 then c.percussion.trigger_kick
              else c.percussion))) := by
  constructor
  · intro i hi hv
    have hcond : i ≠ 0 ∧ hasVoice c.melody.voices i = true := ⟨hi, hv⟩
    dsimp only [Composer.trigger_motion]
    rw [if_pos hcond]
    dsimp only [MelodyLayer.trigger_by_sensor]
    rw [if_pos hv]
    exact ⟨rfl, fun j hj => lookupVoice_mapVoice_ne _ _ _ hj _,
      lookupVoice_mapVoice_eq _ _ _, rfl⟩
  · intro sid hsid
    have hbranch : Composer.trigger_motion env c sid g
        = Composer.trigger_motion env c none g := by
      rcases hsid with rfl | rfl | ⟨i, rfl, hfalse⟩
      · rfl
      · dsimp only [Composer.trigger_motion]
        rw [if_neg (fun hc => hc.1 rfl)]
      · dsimp only [Composer.trigger_motion]
        rw [if_neg (fun hc => by rw [hfalse] at hc; exact Bool.false_ne_true hc.2)]
    rw [hbranch]
    constructor
    · intro hempty
      dsimp only [Composer.trigger_motion]
      rw [(trigger_random_voice_spec env c.melody g).1 hempty]
      exact ⟨rfl, rfl⟩
    · intro hg hne
      obtain ⟨idx, hidx, hrng, hother, hhit⟩ :=
        (trigger_random_voice_spec env c.melody g).2 hg hne
      refine ⟨idx, hidx, ?_, ?_, ?_⟩
      · intro j hj
        dsimp only [Composer.trigger_motion]
        exact hother j hj
      · dsimp only [Composer.trigger_motion]
        exact hhit
      · dsimp only [Composer.trigger_motion]
        rw [hrng]
        rfl

/-- Counterexample for C9 as stated: `wComposer` has a melody voice for
sensor id 0, yet `trigger_motion(0)` (Python: `if sensor_id and ...` is
false for 0) takes the random branch, and with the valid draw 0.9 it
triggers the voice keyed 5 instead: voice 0's envelope stays 0 (a trigger
would have set it to 1). -/
theorem trigger_motion_truthiness_zero_id :
    hasVoice wComposer.melody.voices 0 = true ∧
    Rng.Valid wRng ∧
    (lookupVoice ((Composer.trigger_motion zeroEnv wComposer (some 0) wRng).1.melody.voices) 0).map
        MelodyVoice.envelope = some 0 ∧
    (lookupVoice ((Composer.trigger_motion zeroEnv wComposer (some 0) wRng).1.melody.voices) 5).map
        MelodyVoice.envelope = some 1 := by
  have hidx : (wRng.choiceIdx 2).1 = 1 := by
    dsimp only [Rng.choiceIdx, Rng.next, wRng]
    norm_num [pyInt]
  have hmain : (Composer.trigger_motion zeroEnv wComposer (some 0) wRng).1.melody.voices
      = wComposer.melody.voices.mapIdx
          (fun j kv => if j = 1 then (kv.1, kv.2.trigger_note zeroEnv) else kv) := by
    dsimp only [Composer.trigger_motion]
    rw [if_neg (fun hc => hc.1 rfl)]
    dsimp only [MelodyLayer.trigger_random_voice]
    rw [if_neg (by decide)]
    rw [show wComposer.melody.voices.length = 2 from rfl, hidx]
  refine ⟨rfl, fun n => by constructor <;> norm_num [wRng], ?_, ?_⟩ <;> rw [hmain] <;> rfl

/-- Witness for C9 at concrete inputs: in `wComposer`, the nonzero known id
5 triggers exactly the voice keyed 5. -/
theorem trigger_motion_branches_witness :
    ((Composer.trigger_motion zeroEnv wComposer (some 5) wRng).1.melody.voices
        = mapVoice wComposer.melody.voices 5 (fun v => v.trigger_note zeroEnv)) ∧
    (lookupVoice ((Composer.trigger_motion zeroEnv wComposer (some 5) wRng).1.melody.voices) 5
        = (lookupVoice wComposer.melody.voices 5).map (fun v => v.trigger_note zeroEnv)) :=
  ⟨((trigger_motion_branches zeroEnv wComposer wRng).1 5 (by decide) (by decide)).1,
   ((trigger_motion_branches zeroEnv wComposer wRng).1 5 (by decide) (by decide)).2.2.1⟩

end HueMusic
